import Mathlib

/-!
# Shallow embedding of the nexveil-auth client SDK

This file embeds the `NexveilAuth` class (the JavaScript implementation
shipped in `index.d.ts` after the type declarations) into Lean 4 and proves
the specification claims about it.

Modelling conventions:
* JavaScript object fields that may be `undefined`/`null` are `Option` values.
* JavaScript truthiness of an optional string (`undefined`, `null` and `""`
  are falsy) is `jsTruthy`.
* `throw` is `Except.error` carrying the message string; mutation of `this`
  is explicit state passing on `AuthState`.  Because a JS `throw` does not
  roll back earlier mutations, `verify` returns the post-state alongside the
  `Except` result.
* The SHA-256 hash is a parameter `H : String → String` of every function
  that hashes (the source calls `crypto.createHash('sha256')`); the claims
  are about which strings are hashed and how results propagate, never about
  SHA-256 internals.
* `os.*` probes and `execSync` are a `SystemInfo` record supplied by the
  environment; `fetch` is a function from the assembled request to a
  `TransportResult`.  `crypto.randomBytes` (the nonce), `Date.now()` and
  `new Date().toISOString()` are parameters `nonce`, `clientTime`, `isoTime`.
-/

/-- JavaScript truthiness of an optional string: `undefined`/`null`/`""` are
falsy, every other string truthy. -/
def jsTruthy : Option String → Bool
  | none => false
  | some s => s != ""

/-- JavaScript string coercion used when an optional value is concatenated
into a string: a missing value concatenates as `"undefined"`. -/
def jsStr : Option String → String
  | none => "undefined"
  | some s => s

/-- JavaScript `a || null` on an optional string: falsy collapses to null. -/
def jsOrNull (o : Option String) : Option String :=
  if jsTruthy o then o else none

/-- Prefix test on character lists. -/
def prefixChars : List Char → List Char → Bool
  | [], _ => true
  | _ :: _, [] => false
  | a :: as, b :: bs => a == b && prefixChars as bs

/-- Substring test on character lists. -/
def containsSubChars (pat : List Char) : List Char → Bool
  | [] => prefixChars pat []
  | c :: rest => prefixChars pat (c :: rest) || containsSubChars pat rest

/-- JavaScript substring test (`String.prototype.includes`). -/
def containsSub (s pat : String) : Bool :=
  containsSubChars pat.data s.data

/-- Lexicographic code-point comparison on character lists: the default JS
`Array.prototype.sort()` comparison on the ASCII MAC strings. -/
def charsLt : List Char → List Char → Bool
  | [], [] => false
  | [], _ :: _ => true
  | _ :: _, [] => false
  | a :: as, b :: bs =>
    if a.toNat < b.toNat then true
    else if b.toNat < a.toNat then false
    else charsLt as bs

/-- String comparison used by the JS sort. -/
def strLt (a b : String) : Bool := charsLt a.data b.data

/-- Insertion step for the JS `Array.prototype.sort()` on strings. -/
def insertStr (x : String) : List String → List String
  | [] => [x]
  | y :: ys => if strLt y x then y :: insertStr x ys else x :: y :: ys

/-- The JS `macAddresses.sort()` call: sort a list of strings. -/
def sortStrings : List String → List String
  | [] => []
  | x :: xs => insertStr x (sortStrings xs)

/-- Raw constructor argument (`config`), fields optional as in JS. -/
structure RawConfig where
  appName : Option String := none
  secret1 : Option String := none
  secret2 : Option String := none
  secret3 : Option String := none
  apiUrl : Option String := none
  autoHWID : Option Bool := none
  customHWID : Option String := none
  strictSSL : Option Bool := none
deriving Repr, DecidableEq

/-- The normalized verification result built by `verify` (STEP 4). -/
structure VerificationResult where
  success : Bool
  code : String
  message : String
  signature : Option String
  data : Option String               -- opaque `data.data` payload, passed through
  isActivated : Bool
  isValid : Bool
  timestamp : String
deriving Repr, DecidableEq

/-- The instance state of a `NexveilAuth` object (`this`). -/
structure AuthState where
  appName : String
  secret1 : String
  secret2 : String
  secret3 : String
  apiUrl : String
  autoHWID : Bool
  customHWID : Option String
  strictSSL : Bool
  hwidCache : Option String          -- `this._hwid`
  lastVerification : Option VerificationResult  -- `this._lastVerification`
deriving Repr, DecidableEq

/-- Method `validateConfig(config)`: throws on bad input, otherwise hands the
configuration back (the JS method returns nothing; returning the validated
record makes the data flow to the constructor explicit). -/
def validateConfig : Option RawConfig → Except String RawConfig
  | none => .error "nexveil: Configuration object is required"
  | some config =>
    -- `for (const field of required) if (!config[field]) throw`
    if !jsTruthy config.appName then
      .error "nexveil: Missing required field: appName"
    else if !jsTruthy config.secret1 then
      .error "nexveil: Missing required field: secret1"
    else if !jsTruthy config.secret2 then
      .error "nexveil: Missing required field: secret2"
    else if !jsTruthy config.secret3 then
      .error "nexveil: Missing required field: secret3"
    -- `/^.{64}$/s` : exactly 64 characters, any content
    else if (jsStr config.secret1).length ≠ 64 then
      .error "nexveil: secret1 must be exactly 64 characters"
    else if (jsStr config.secret2).length ≠ 64 then
      .error "nexveil: secret2 must be exactly 64 characters"
    else if (jsStr config.secret3).length ≠ 64 then
      .error "nexveil: secret3 must be exactly 64 characters"
    -- `typeof config.appName !== 'string' || config.appName.length === 0`
    -- (fields are typed strings here, and a truthy string is non-empty)
    else if (jsStr config.appName).length = 0 then
      .error "nexveil: appName must be a non-empty string"
    else
      .ok config

/-- The `NexveilAuth` constructor: validate, then populate `this`. -/
def NexveilAuth.new (oc : Option RawConfig) : Except String AuthState :=
  match validateConfig oc with
  | .error e => .error e
  | .ok config =>
    .ok {
      appName := jsStr config.appName
      secret1 := jsStr config.secret1
      secret2 := jsStr config.secret2
      secret3 := jsStr config.secret3
      -- `config.apiUrl || 'https://api.nexveil.net'`
      apiUrl := if jsTruthy config.apiUrl then jsStr config.apiUrl
                else "https://api.nexveil.net"
      -- `config.autoHWID !== false` (default true)
      autoHWID := config.autoHWID != some false
      -- `config.customHWID || null`
      customHWID := jsOrNull config.customHWID
      -- `config.strictSSL !== false` (default true)
      strictSSL := config.strictSSL != some false
      hwidCache := none
      lastVerification := none }

/-- The machine facts `generateHWID` probes: `os.cpus()` models,
`os.hostname()`, `os.platform()`, `os.arch()`, the `mac` fields of
`os.networkInterfaces()` in iteration order (an absent mac modelled as
`""`), and the outcome of the platform-specific `execSync` lookup
(`none` = the command failed). -/
structure SystemInfo where
  cpuModels : List String
  hostname : String
  platform : String
  arch : String
  macs : List String
  platformId : Option String
deriving Repr, DecidableEq

/-- The component list `generateHWID` assembles before hashing:
CPU model (when any CPU is reported), hostname, platform, arch, the
sorted truthy non-all-zero MAC addresses, then the best-effort
platform-specific identifier on win32/linux/darwin (omitted on failure). -/
def hwidComponents (sys : SystemInfo) : List String :=
  (sys.cpuModels.head?.toList)
  ++ [sys.hostname, sys.platform, sys.arch]
  ++ sortStrings (sys.macs.filter
       (fun m => m != "" && m != "00:00:00:00:00:00"))
  ++ (if sys.platform = "win32" ∨ sys.platform = "linux"
         ∨ sys.platform = "darwin"
      then sys.platformId.toList else [])

/-- Method `generateHWID()`.  Returns the fingerprint, the updated state, and a
flag recording whether the system was probed on this call (the explicit
trace of the `os`/`execSync` effects). -/
def generateHWID (H : String → String) (sys : SystemInfo) (s : AuthState) :
    String × AuthState × Bool :=
  if jsTruthy s.customHWID then
    (jsStr s.customHWID, s, false)
  else
    match s.hwidCache with
    | some h => (h, s, false)
    | none =>
      let combined := String.intercalate "||" (hwidComponents sys)
      let hwid := H combined
      (hwid, { s with hwidCache := some hwid }, true)

/-- Method `getHWID()`: the `autoHWID` branch first, then `customHWID`, else throw. -/
def getHWID (H : String → String) (sys : SystemInfo) (s : AuthState) :
    Except String (String × AuthState) :=
  if s.autoHWID then
    let (h, s', _) := generateHWID H sys s
    .ok (h, s')
  else if jsTruthy s.customHWID then
    .ok (jsStr s.customHWID, s)
  else
    .error "Nexveil: HWID not set. Enable autoHWID or provide customHWID"

/-- Method `setHWID(hwid)`: reject falsy input, else overwrite both the custom
value and the memoized value. -/
def setHWID (s : AuthState) (hwid : String) : Except String AuthState :=
  if hwid = "" then
    .error "Nexveil: HWID must be a non-empty string"
  else
    .ok { s with customHWID := some hwid, hwidCache := some hwid }

/-- Percent-encoding digits for `encodeURIComponent`. -/
def hexDigitChar (n : Nat) : Char :=
  if n < 10 then Char.ofNat (48 + n) else Char.ofNat (55 + n)

/-- A byte as two uppercase hex digits. -/
def byteHex (b : Nat) : String :=
  String.mk [hexDigitChar (b / 16 % 16), hexDigitChar (b % 16)]

/-- Bytes `encodeURIComponent` leaves unescaped: ASCII alphanumerics and
`- _ . ! ~ * ' ( )`. -/
def uriUnreserved (b : Nat) : Bool :=
  (65 ≤ b && b ≤ 90) || (97 ≤ b && b ≤ 122) || (48 ≤ b && b ≤ 57) ||
  b = 45 || b = 95 || b = 46 || b = 33 || b = 126 || b = 42 ||
  b = 39 || b = 40 || b = 41

/-- JS `encodeURIComponent`: percent-encode every UTF-8 byte outside the
unreserved set. -/
def encodeURIComponent (s : String) : String :=
  String.join (s.toUTF8.toList.map fun b =>
    let n := b.toNat
    if uriUnreserved n then String.singleton (Char.ofNat n)
    else "%" ++ byteHex n)

/-- The outgoing request `verify` assembles (STEP 2): URL with query
parameters plus the four protocol headers. -/
structure Request where
  url : String
  clienttime : String
  externalsignature : String
  clientnonce : String
  clienthwid : String
deriving Repr, DecidableEq

/-- The parsed JSON body of the server's reply. -/
structure ServerResponse where
  code : Option String := none
  message : Option String := none
  signature : Option String := none
  data : Option String := none
deriving Repr, DecidableEq

/-- What the transport collaborator (`fetch` + `response.json()`) yields:
either a network/parse failure (the thrown message) or a status code with
a parsed body. -/
inductive TransportResult where
  | netError (msg : String)
  | reply (status : Nat) (body : ServerResponse)
deriving Repr, DecidableEq

/-- STEPS 1–2 of `verify`: compute the client signature
(`sha256(nonce + secret1 + key + secret2 + time + secret3 + hwid)`) and
assemble the URL and headers handed to `fetch`. -/
def buildRequest (H : String → String) (s : AuthState)
    (key nonce clientTime clientHWID : String) : Request :=
  { url := s.apiUrl ++ "/wlv1/application/auth?key="
      ++ encodeURIComponent key ++ "&app_name="
      ++ encodeURIComponent s.appName
    clienttime := clientTime
    externalsignature := H (nonce ++ s.secret1 ++ key ++ s.secret2
      ++ clientTime ++ s.secret3 ++ clientHWID)
    clientnonce := nonce
    clienthwid := clientHWID }

/-- The body of `verify`'s `try` block (STEPS 1–4).  Errors escape to the
`catch` wrapper in `verify`. -/
def verifyTry (H : String → String) (sys : SystemInfo)
    (net : Request → TransportResult) (nonce clientTime isoTime : String)
    (s : AuthState) (key : String) :
    Except String VerificationResult × AuthState :=
  match getHWID H sys s with
  | .error e => (.error e, s)
  | .ok (clientHWID, s₁) =>
    -- STEPS 1–2: sign, assemble, and send the request
    match net (buildRequest H s₁ key nonce clientTime clientHWID) with
    | .netError msg => (.error msg, s₁)
    | .reply status body =>
      if 500 ≤ status then
        (.error ("nexveil: Server error (" ++ toString status ++ ")"), s₁)
      else
        -- STEP 3: `if (data.signature)` — truthiness gate, then equality
        if jsTruthy body.signature &&
           jsStr body.signature != H (nonce ++ s₁.secret3 ++ jsStr body.code)
        then
          (.error "nexveil: Server signature verification failed - response may be tampered", s₁)
        else
          -- STEP 4: classify and (on success) cache
          let result : VerificationResult := {
            success := false
            code := if jsTruthy body.code then jsStr body.code
                    else "UNKNOWN_ERROR"
            message := if jsTruthy body.message then jsStr body.message
                       else "Unknown error occurred"
            signature := jsOrNull body.signature
            data := jsOrNull body.data
            isActivated := body.code == some "KEY_ACTIVATED"
            isValid := body.code == some "KEY_VALID"
                       || body.code == some "KEY_ACTIVATED"
            timestamp := isoTime }
          if result.isValid then
            let result := { result with success := true }
            (.ok result, { s₁ with lastVerification := some result })
          else
            (.ok result, s₁)

/-- Method `verify(key)`: the input guard outside the `try`, then the `try` body,
then the `catch` clause that rethrows `nexveil:`-tagged errors verbatim and
wraps everything else. -/
def verify (H : String → String) (sys : SystemInfo)
    (net : Request → TransportResult) (nonce clientTime isoTime : String)
    (s : AuthState) (key : String) :
    Except String VerificationResult × AuthState :=
  if key = "" then
    (.error "Nexveil: License key must be a non-empty string", s)
  else
    match verifyTry H sys net nonce clientTime isoTime s key with
    | (.ok r, s') => (.ok r, s')
    | (.error e, s') =>
      if containsSub e "nexveil:" then (.error e, s')
      else (.error ("nexveil: Verification failed - " ++ e), s')

/-- Method `verifyOrThrow(key)`: call `verify`; convert an unsuccessful result
into a rejection embedding its code and message. -/
def verifyOrThrow (H : String → String) (sys : SystemInfo)
    (net : Request → TransportResult) (nonce clientTime isoTime : String)
    (s : AuthState) (key : String) :
    Except String VerificationResult × AuthState :=
  match verify H sys net nonce clientTime isoTime s key with
  | (.ok r, s') =>
    if !r.success then
      (.error ("nexveil: " ++ r.code ++ " - " ++ r.message), s')
    else
      (.ok r, s')
  | (.error e, s') => (.error e, s')

/-- Method `getLastVerification()`. -/
def getLastVerification (s : AuthState) : Option VerificationResult :=
  s.lastVerification

/-- A JavaScript value as returned by `isAuthenticated()`: the `&&`
operator yields the falsy left operand (`null`) or the right operand
(a boolean). -/
inductive JsValue where
  | nullv
  | boolv (b : Bool)
deriving Repr, DecidableEq

/-- Method `isAuthenticated()`, i.e. `this._lastVerification && this._lastVerification.success`. -/
def isAuthenticated (s : AuthState) : JsValue :=
  match s.lastVerification with
  | none => .nullv
  | some r => .boolv r.success

/-- Method `clearCache()`. -/
def clearCache (s : AuthState) : AuthState :=
  { s with lastVerification := none }

/-! ## Helper lemmas about state evolution -/

/-- Running `generateHWID` only ever writes the `_hwid` memo cell. -/
theorem generateHWID_state_shape (H : String → String) (sys : SystemInfo)
    (s : AuthState) :
    ∃ c, (generateHWID H sys s).2.1 = { s with hwidCache := c } := by
  unfold generateHWID
  split
  · exact ⟨s.hwidCache, rfl⟩
  · split
    · exact ⟨s.hwidCache, rfl⟩
    · exact ⟨_, rfl⟩

/-- A successful `getHWID` only ever writes the `_hwid` memo cell. -/
theorem getHWID_state_shape (H : String → String) (sys : SystemInfo)
    (s : AuthState) (h : String) (s₁ : AuthState)
    (hh : getHWID H sys s = .ok (h, s₁)) :
    ∃ c, s₁ = { s with hwidCache := c } := by
  unfold getHWID at hh
  split at hh
  · obtain ⟨c, hc⟩ := generateHWID_state_shape H sys s
    cases hh
    exact ⟨c, hc⟩
  · split at hh
    · cases hh
      exact ⟨s.hwidCache, rfl⟩
    · cases hh

/-! ## Claim C9 -/

/-- C9: whenever a custom HWID is configured (constructor `customHWID` or a
prior `setHWID`), `generateHWID()` returns that custom value verbatim —
for every hash function and every machine environment, with no state change
and no system probe — instead of performing the documented derivation. -/
theorem generateHWID_custom_verbatim (H : String → String) (sys : SystemInfo)
    (s : AuthState) (h : jsTruthy s.customHWID = true) :
    generateHWID H sys s = (jsStr s.customHWID, s, false) := by
  unfold generateHWID
  simp [h]

/-- Witness for C9 at a concrete instance with `customHWID = "my-hwid"`. -/
theorem generateHWID_custom_verbatim_witness :
    generateHWID (fun x => "#" ++ x)
      ⟨["cpu"], "host", "linux", "x64", ["aa:bb"], some "mid"⟩
      { appName := "Test", secret1 := "s1", secret2 := "s2", secret3 := "s3"
        apiUrl := "u", autoHWID := true, customHWID := some "my-hwid"
        strictSSL := true, hwidCache := none, lastVerification := none } =
      ("my-hwid",
       { appName := "Test", secret1 := "s1", secret2 := "s2", secret3 := "s3"
         apiUrl := "u", autoHWID := true, customHWID := some "my-hwid"
         strictSSL := true, hwidCache := none, lastVerification := none },
       false) :=
  generateHWID_custom_verbatim _ _ _ (by decide)

/-! ## Claim C10 -/

/-- C10: with no cached verification (fresh instance, or after
`clearCache()`), `isAuthenticated()` returns the null cache value itself —
not the boolean `false` — and it evaluates the cached result's `success`
flag only when a cached result exists. -/
theorem isAuthenticated_null_when_uncached :
    (JsValue.nullv ≠ JsValue.boolv false) ∧
    (∀ s : AuthState, s.lastVerification = none → isAuthenticated s = .nullv) ∧
    (∀ s : AuthState, isAuthenticated (clearCache s) = .nullv) ∧
    (∀ oc st, NexveilAuth.new oc = .ok st → isAuthenticated st = .nullv) ∧
    (∀ (s : AuthState) (r : VerificationResult),
      s.lastVerification = some r → isAuthenticated s = .boolv r.success) := by
  refine ⟨by decide, fun s h => ?_, fun s => ?_, fun oc st h => ?_,
    fun s r h => ?_⟩
  · simp [isAuthenticated, h]
  · simp [isAuthenticated, clearCache]
  · unfold NexveilAuth.new at h
    split at h
    · cases h
    · cases h
      simp [isAuthenticated]
  · simp [isAuthenticated, h]

/-- Witness for C10: a fresh instance answers null, a cached failed result
answers the boolean. -/
theorem isAuthenticated_null_when_uncached_witness :
    isAuthenticated
      { appName := "Test", secret1 := "s1", secret2 := "s2", secret3 := "s3"
        apiUrl := "u", autoHWID := true, customHWID := none
        strictSSL := true, hwidCache := none, lastVerification := none } =
      .nullv :=
  isAuthenticated_null_when_uncached.2.1 _ rfl

/-! ## Claim C6 -/

/-- Modelled from the spec's words (§4.2): the `getHWID` state machine —
custom fingerprint wins, else auto-generate-and-cache, else fail.  Used to
compare the source's `getHWID` (which tests `autoHWID` first) against the
specified machine. -/
def getHWID_specMachine (H : String → String) (sys : SystemInfo)
    (s : AuthState) : Except String (String × AuthState) :=
  if jsTruthy s.customHWID then
    .ok (jsStr s.customHWID, s)
  else if s.autoHWID then
    let p := generateHWID H sys s
    .ok (p.1, p.2.1)
  else
    .error "Nexveil: HWID not set. Enable autoHWID or provide customHWID"

/-- C6: `getHWID()` agrees everywhere with the specified state machine
(custom value always wins, even with auto-generation enabled; else
generate-and-cache; else the HWID-not-set error), and after `setHWID x`
every subsequent `getHWID()` returns `x` with no further state change. -/
theorem getHWID_state_machine :
    (∀ (H : String → String) (sys : SystemInfo) (s : AuthState),
      getHWID H sys s = getHWID_specMachine H sys s) ∧
    (∀ (H : String → String) (sys : SystemInfo) (s : AuthState) (x : String)
        (s' : AuthState), setHWID s x = .ok s' →
      getHWID H sys s' = .ok (x, s')) := by
  constructor
  · intro H sys s
    by_cases ha : s.autoHWID <;> by_cases hc : jsTruthy s.customHWID <;>
      simp [getHWID, getHWID_specMachine, generateHWID, ha, hc]
  · intro H sys s x s' hset
    unfold setHWID at hset
    split at hset
    · cases hset
    · cases hset
      rename_i hx
      have htruthy : jsTruthy (some x) = true := by
        simp [jsTruthy, hx]
      by_cases ha : s.autoHWID <;>
        simp [getHWID, generateHWID, jsStr, ha, htruthy]

/-- Witness for C6: after `setHWID "X"` on an auto-HWID instance,
`getHWID` returns `"X"`. -/
theorem getHWID_state_machine_witness :
    getHWID (fun x => "#" ++ x)
      ⟨["cpu"], "host", "linux", "x64", ["aa:bb"], some "mid"⟩
      { appName := "Test", secret1 := "s1", secret2 := "s2", secret3 := "s3"
        apiUrl := "u", autoHWID := true, customHWID := some "X"
        strictSSL := true, hwidCache := some "X", lastVerification := none } =
      .ok ("X",
        { appName := "Test", secret1 := "s1", secret2 := "s2", secret3 := "s3"
          apiUrl := "u", autoHWID := true, customHWID := some "X"
          strictSSL := true, hwidCache := some "X",
          lastVerification := none }) :=
  getHWID_state_machine.2 _ _
    { appName := "Test", secret1 := "s1", secret2 := "s2", secret3 := "s3"
      apiUrl := "u", autoHWID := true, customHWID := none
      strictSSL := true, hwidCache := none, lastVerification := none }
    "X" _ rfl

/-! ## Claim C7 -/

/-- C7: with no custom HWID, `generateHWID()` hashes (SHA-256, here the
hash parameter `H`) the fixed-delimiter join of: CPU model, hostname,
platform, architecture, the sorted non-null MAC addresses with the
all-zero MAC excluded, then the best-effort platform-specific identifier
(omitted when the lookup failed); it caches the result, and a repeated
call returns the identical value from the memo without probing the system
again (the repeat is independent of the machine environment). -/
theorem generateHWID_derivation_memoized (H : String → String)
    (sys : SystemInfo) (s : AuthState)
    (hc : jsTruthy s.customHWID = false) (hm : s.hwidCache = none) :
    (generateHWID H sys s).1 = H (String.intercalate "||"
      (sys.cpuModels.head?.toList
        ++ [sys.hostname, sys.platform, sys.arch]
        ++ sortStrings (sys.macs.filter
             (fun m => m != "" && m != "00:00:00:00:00:00"))
        ++ (if sys.platform = "win32" ∨ sys.platform = "linux"
               ∨ sys.platform = "darwin"
            then sys.platformId.toList else []))) ∧
    (generateHWID H sys s).2.2 = true ∧
    (generateHWID H sys s).2.1.hwidCache = some (generateHWID H sys s).1 ∧
    (∀ sys' : SystemInfo,
      generateHWID H sys' (generateHWID H sys s).2.1 =
        ((generateHWID H sys s).1, (generateHWID H sys s).2.1, false)) := by
  have h1 : generateHWID H sys s =
      (H (String.intercalate "||" (hwidComponents sys)),
       { s with hwidCache := some (H (String.intercalate "||" (hwidComponents sys))) },
       true) := by
    unfold generateHWID
    simp [hc, hm]
  refine ⟨?_, ?_, ?_, fun sys' => ?_⟩
  · rw [h1]; simp [hwidComponents]
  · rw [h1]
  · rw [h1]
  · rw [h1]; simp [generateHWID, hc]

/-- Witness for C7: a concrete Linux machine; the derivation filters the
empty and all-zero MACs, sorts the rest, appends the machine id, and the
second call is served from the memo. -/
theorem generateHWID_derivation_memoized_witness :
    jsTruthy (AuthState.customHWID
      { appName := "Test", secret1 := "s1", secret2 := "s2", secret3 := "s3"
        apiUrl := "u", autoHWID := true, customHWID := none
        strictSSL := true, hwidCache := none,
        lastVerification := none }) = false ∧
    (generateHWID (fun x => "#" ++ x)
      ⟨["cpu0"], "host", "linux", "x64",
        ["ee:ff", "", "00:00:00:00:00:00", "aa:bb"], some "mid"⟩
      { appName := "Test", secret1 := "s1", secret2 := "s2", secret3 := "s3"
        apiUrl := "u", autoHWID := true, customHWID := none
        strictSSL := true, hwidCache := none, lastVerification := none }).1 =
      "#cpu0||host||linux||x64||aa:bb||ee:ff||mid" := by
  constructor
  · decide
  · have h := generateHWID_derivation_memoized (fun x => "#" ++ x)
      ⟨["cpu0"], "host", "linux", "x64",
        ["ee:ff", "", "00:00:00:00:00:00", "aa:bb"], some "mid"⟩
      { appName := "Test", secret1 := "s1", secret2 := "s2", secret3 := "s3"
        apiUrl := "u", autoHWID := true, customHWID := none
        strictSSL := true, hwidCache := none, lastVerification := none }
      (by decide) rfl
    rw [h.1]
    decide

/-! ## Claim C5 -/

/-- A field whose string value has length 64 is JS-truthy (in particular it
is present: the absent value would coerce to `"undefined"`, of length 9). -/
theorem len64_truthy (o : Option String) (h : (jsStr o).length = 64) :
    jsTruthy o = true := by
  cases o with
  | none => exact absurd h (by decide)
  | some s =>
    simp only [jsTruthy, bne_iff_ne, ne_eq, decide_eq_true_eq]
    intro hs
    subst hs
    exact absurd h (by decide)

/-- A JS-truthy string field has non-zero length. -/
theorem truthy_len_ne_zero (o : Option String) (h : jsTruthy o = true) :
    (jsStr o).length ≠ 0 := by
  cases o with
  | none => simp [jsTruthy] at h
  | some s =>
    simp only [jsTruthy, bne_iff_ne, ne_eq, decide_eq_true_eq] at h
    simp only [jsStr]
    intro hl
    apply h
    cases s with
    | mk data =>
      cases data with
      | nil => rfl
      | cons c cs => simp [String.length] at hl

/-- C5: construction fails with a configuration error naming the offending
field when the configuration is absent, when `appName` or a secret is
missing or empty (checked in order), or when a secret's length is not 64
(checked in order); and every configuration whose `appName` is truthy and
whose three secrets are exactly 64 characters — any character class — is
accepted. -/
theorem config_validation :
    (NexveilAuth.new none =
      .error "nexveil: Configuration object is required") ∧
    (∀ cfg : RawConfig, jsTruthy cfg.appName = false →
      NexveilAuth.new (some cfg) =
        .error "nexveil: Missing required field: appName") ∧
    (∀ cfg : RawConfig, jsTruthy cfg.appName = true →
        jsTruthy cfg.secret1 = false →
      NexveilAuth.new (some cfg) =
        .error "nexveil: Missing required field: secret1") ∧
    (∀ cfg : RawConfig, jsTruthy cfg.appName = true →
        jsTruthy cfg.secret1 = true → jsTruthy cfg.secret2 = false →
      NexveilAuth.new (some cfg) =
        .error "nexveil: Missing required field: secret2") ∧
    (∀ cfg : RawConfig, jsTruthy cfg.appName = true →
        jsTruthy cfg.secret1 = true → jsTruthy cfg.secret2 = true →
        jsTruthy cfg.secret3 = false →
      NexveilAuth.new (some cfg) =
        .error "nexveil: Missing required field: secret3") ∧
    (∀ cfg : RawConfig, jsTruthy cfg.appName = true →
        jsTruthy cfg.secret1 = true → jsTruthy cfg.secret2 = true →
        jsTruthy cfg.secret3 = true → (jsStr cfg.secret1).length ≠ 64 →
      NexveilAuth.new (some cfg) =
        .error "nexveil: secret1 must be exactly 64 characters") ∧
    (∀ cfg : RawConfig, jsTruthy cfg.appName = true →
        jsTruthy cfg.secret1 = true → jsTruthy cfg.secret2 = true →
        jsTruthy cfg.secret3 = true → (jsStr cfg.secret1).length = 64 →
        (jsStr cfg.secret2).length ≠ 64 →
      NexveilAuth.new (some cfg) =
        .error "nexveil: secret2 must be exactly 64 characters") ∧
    (∀ cfg : RawConfig, jsTruthy cfg.appName = true →
        jsTruthy cfg.secret1 = true → jsTruthy cfg.secret2 = true →
        jsTruthy cfg.secret3 = true → (jsStr cfg.secret1).length = 64 →
        (jsStr cfg.secret2).length = 64 → (jsStr cfg.secret3).length ≠ 64 →
      NexveilAuth.new (some cfg) =
        .error "nexveil: secret3 must be exactly 64 characters") ∧
    (∀ cfg : RawConfig, jsTruthy cfg.appName = true →
        (jsStr cfg.secret1).length = 64 → (jsStr cfg.secret2).length = 64 →
        (jsStr cfg.secret3).length = 64 →
      ∃ st, NexveilAuth.new (some cfg) = .ok st) := by
  refine ⟨rfl, ?_, ?_, ?_, ?_, ?_, ?_, ?_, ?_⟩
  · intro cfg ha
    simp [NexveilAuth.new, validateConfig, ha]
  · intro cfg ha h1
    simp [NexveilAuth.new, validateConfig, ha, h1]
  · intro cfg ha h1 h2
    simp [NexveilAuth.new, validateConfig, ha, h1, h2]
  · intro cfg ha h1 h2 h3
    simp [NexveilAuth.new, validateConfig, ha, h1, h2, h3]
  · intro cfg ha h1 h2 h3 hl1
    simp [NexveilAuth.new, validateConfig, ha, h1, h2, h3, hl1]
  · intro cfg ha h1 h2 h3 hl1 hl2
    simp [NexveilAuth.new, validateConfig, ha, h1, h2, h3, hl1, hl2]
  · intro cfg ha h1 h2 h3 hl1 hl2 hl3
    simp [NexveilAuth.new, validateConfig, ha, h1, h2, h3, hl1, hl2, hl3]
  · intro cfg ha hl1 hl2 hl3
    have h1 := len64_truthy _ hl1
    have h2 := len64_truthy _ hl2
    have h3 := len64_truthy _ hl3
    have ha0 := truthy_len_ne_zero _ ha
    simp [NexveilAuth.new, validateConfig, ha, h1, h2, h3, hl1, hl2, hl3, ha0]

/-- A fixture secret: `n` copies of the letter x. -/
def secretOf (n : Nat) : String := String.mk (List.replicate n 'x')

/-- A fixture configuration whose first secret mixes symbols, uppercase and
lowercase — 64 characters in all. -/
def cfgMixed : RawConfig :=
  { appName := some "Test",
    secret1 := some "!@#$%^&*()_+-=<>?,.;:~ ABCDEFGHIJKLMNOPQRSTUVWXYZabcdefghijklmno",
    secret2 := some (secretOf 64),
    secret3 := some (secretOf 64) }

/-- Witness for C5 at concrete inputs: absent configuration; missing
`appName`; a 63- and a 65-character secret rejected naming the secret; a
64-character mixed-symbol secret accepted. -/
theorem config_validation_witness :
    NexveilAuth.new
        (some { appName := none, secret1 := some (secretOf 64),
                secret2 := some (secretOf 64), secret3 := some (secretOf 64) }) =
      .error "nexveil: Missing required field: appName" ∧
    NexveilAuth.new
        (some { appName := some "Test", secret1 := some (secretOf 63),
                secret2 := some (secretOf 64), secret3 := some (secretOf 64) }) =
      .error "nexveil: secret1 must be exactly 64 characters" ∧
    NexveilAuth.new
        (some { appName := some "Test", secret1 := some (secretOf 64),
                secret2 := some (secretOf 65), secret3 := some (secretOf 64) }) =
      .error "nexveil: secret2 must be exactly 64 characters" ∧
    (NexveilAuth.new (some cfgMixed)).isOk = true := by
  refine ⟨?_, ?_, ?_, ?_⟩
  · exact config_validation.2.1 _ (by decide)
  · exact config_validation.2.2.2.2.2.1 _ (by decide) (by decide) (by decide)
      (by decide) (by decide)
  · exact config_validation.2.2.2.2.2.2.1 _ (by decide) (by decide) (by decide)
      (by decide) (by decide) (by decide)
  · obtain ⟨st, hst⟩ := config_validation.2.2.2.2.2.2.2.2 cfgMixed (by decide)
      (by decide) (by decide) (by decide)
    rw [hst]
    rfl

/-! ## Claim C2 -/

/-- C2: the client signature `verify()` sends is the hash of exactly
`nonce ∥ secret1 ∥ key ∥ secret2 ∥ timestamp ∥ secret3 ∥ hwid` — that
concatenation order, over the instance's own secrets — and the transport
is consulted at that one request only, so two runs over transports that
agree on it coincide (the embedding is a pure function of its inputs, so
the signature is byte-identical across runs for fixed inputs). -/
theorem clientSignature_concatenation (H : String → String)
    (sys : SystemInfo) (nonce clientTime : String) (s : AuthState)
    (key hwid : String) (s₁ : AuthState)
    (hhw : getHWID H sys s = .ok (hwid, s₁)) :
    (buildRequest H s₁ key nonce clientTime hwid).externalsignature =
      H (nonce ++ s.secret1 ++ key ++ s.secret2 ++ clientTime
         ++ s.secret3 ++ hwid) ∧
    (∀ (net net' : Request → TransportResult) (isoTime : String),
      net (buildRequest H s₁ key nonce clientTime hwid) =
        net' (buildRequest H s₁ key nonce clientTime hwid) →
      verify H sys net nonce clientTime isoTime s key =
        verify H sys net' nonce clientTime isoTime s key) := by
  obtain ⟨c, hc⟩ := getHWID_state_shape H sys s hwid s₁ hhw
  constructor
  · rw [hc]
    rfl
  · intro net net' isoTime heq
    unfold verify verifyTry
    simp only [hhw]
    rw [heq]

/-- A stand-in hash function for concrete witnesses: tags its input. -/
def mockHash (x : String) : String := "#" ++ x

/-- A fixture secret: 64 copies of a given character. -/
def secretRep (c : Char) : String := String.mk (List.replicate 64 c)

/-- A fixture client instance with three distinct 64-character secrets and
a custom hardware id. -/
def stBase : AuthState :=
  { appName := "Test", secret1 := secretRep 'a', secret2 := secretRep 'b'
    secret3 := secretRep 'c', apiUrl := "https://api.nexveil.net"
    autoHWID := true, customHWID := some "HW", strictSSL := true
    hwidCache := none, lastVerification := none }

/-- A fixture machine environment. -/
def sysBase : SystemInfo :=
  ⟨["cpu0"], "host", "linux", "x64", ["aa:bb"], some "mid"⟩

/-- Witness for C2: on the fixture instance the signature sent equals the
hash of the specified concatenation. -/
theorem clientSignature_concatenation_witness :
    (buildRequest mockHash stBase "ABC" "n" "t" "HW").externalsignature =
      mockHash ("n" ++ stBase.secret1 ++ "ABC" ++ stBase.secret2 ++ "t"
        ++ stBase.secret3 ++ "HW") :=
  (clientSignature_concatenation mockHash sysBase "n" "t" stBase "ABC" "HW"
    stBase rfl).1

/-! ## Claim C8 -/

/-- C8: `verifyOrThrow(key)` calls `verify(key)`; a result with
`success = false` becomes a rejection embedding that result's code and
message, a successful result is returned unchanged, and a rejection of
`verify` propagates as-is. -/
theorem verifyOrThrow_behavior (H : String → String) (sys : SystemInfo)
    (net : Request → TransportResult) (nonce clientTime isoTime : String)
    (s : AuthState) (key : String) :
    (∀ r s', verify H sys net nonce clientTime isoTime s key = (.ok r, s') →
      r.success = false →
      verifyOrThrow H sys net nonce clientTime isoTime s key =
        (.error ("nexveil: " ++ r.code ++ " - " ++ r.message), s')) ∧
    (∀ r s', verify H sys net nonce clientTime isoTime s key = (.ok r, s') →
      r.success = true →
      verifyOrThrow H sys net nonce clientTime isoTime s key = (.ok r, s')) ∧
    (∀ e s', verify H sys net nonce clientTime isoTime s key =
        (.error e, s') →
      verifyOrThrow H sys net nonce clientTime isoTime s key =
        (.error e, s')) := by
  refine ⟨fun r s' h hs => ?_, fun r s' h hs => ?_, fun e s' h => ?_⟩ <;>
    unfold verifyOrThrow <;> rw [h] <;> simp [hs]

/-- A fixture expired-key server reply. -/
def bodyExpired : ServerResponse :=
  { code := some "KEY_EXPIRED", message := some "License key has expired" }

/-- The result `verify` computes for `bodyExpired` on the fixtures. -/
def resExpired : VerificationResult :=
  { success := false, code := "KEY_EXPIRED"
    message := "License key has expired", signature := none, data := none
    isActivated := false, isValid := false, timestamp := "iso" }

/-- Witness for C8: an expired key turns into a rejection embedding the
code and message. -/
theorem verifyOrThrow_behavior_witness :
    verifyOrThrow mockHash sysBase (fun _ => .reply 200 bodyExpired)
        "n" "t" "iso" stBase "KEY" =
      (.error ("nexveil: " ++ resExpired.code ++ " - " ++ resExpired.message),
       stBase) :=
  (verifyOrThrow_behavior mockHash sysBase (fun _ => .reply 200 bodyExpired)
    "n" "t" "iso" stBase "KEY").1 resExpired stBase rfl rfl

/-! ## Claim C4 -/

/-- Inside the `try` block: unless the call produces a successful result,
the `_lastVerification` slot is untouched. -/
theorem verifyTry_cache_aux (H : String → String) (sys : SystemInfo)
    (net : Request → TransportResult) (nonce clientTime isoTime : String)
    (s : AuthState) (key : String)
    (h : ∀ r, (verifyTry H sys net nonce clientTime isoTime s key).1 =
      .ok r → r.success = false) :
    ((verifyTry H sys net nonce clientTime isoTime s key).2).lastVerification
      = s.lastVerification := by
  unfold verifyTry at h ⊢
  cases hg : getHWID H sys s with
  | error e => simp [hg]
  | ok p =>
    obtain ⟨hwid, s₁⟩ := p
    obtain ⟨c, hc⟩ := getHWID_state_shape H sys s hwid s₁ hg
    have hlv : s₁.lastVerification = s.lastVerification := by rw [hc]
    simp only [hg] at h ⊢
    cases hnet : net (buildRequest H s₁ key nonce clientTime hwid) with
    | netError msg => simp [hnet, hlv]
    | reply status body =>
      simp only [hnet] at h ⊢
      by_cases hst : 500 ≤ status
      · simp [hst, hlv]
      · simp only [if_neg hst] at h ⊢
        by_cases hsig : (jsTruthy body.signature &&
            (jsStr body.signature !=
              H (nonce ++ s₁.secret3 ++ jsStr body.code))) = true
        · simp [hsig, hlv]
        · simp only [if_neg hsig] at h ⊢
          by_cases hv : (body.code == some "KEY_VALID"
              || body.code == some "KEY_ACTIVATED") = true
          · exfalso
            rw [if_pos hv] at h
            have hfalse := h _ rfl
            simp at hfalse
          · simp [hv, hlv]

/-- The `catch` wrapper never changes the resulting state. -/
theorem verify_snd (H : String → String) (sys : SystemInfo)
    (net : Request → TransportResult) (nonce clientTime isoTime : String)
    (s : AuthState) (key : String) :
    (verify H sys net nonce clientTime isoTime s key).2 =
      if key = "" then s
      else (verifyTry H sys net nonce clientTime isoTime s key).2 := by
  unfold verify
  by_cases hk : key = ""
  · simp [hk]
  · simp only [if_neg hk]
    rcases hvt : verifyTry H sys net nonce clientTime isoTime s key
      with ⟨res, s₂⟩
    cases res <;> simp [apply_ite]

/-- The `catch` wrapper passes successful results through unchanged. -/
theorem verify_fst_ok (H : String → String) (sys : SystemInfo)
    (net : Request → TransportResult) (nonce clientTime isoTime : String)
    (s : AuthState) (key : String) (hk : ¬ key = "")
    (r : VerificationResult) :
    (verify H sys net nonce clientTime isoTime s key).1 = .ok r ↔
      (verifyTry H sys net nonce clientTime isoTime s key).1 = .ok r := by
  unfold verify
  simp only [if_neg hk]
  rcases hvt : verifyTry H sys net nonce clientTime isoTime s key
    with ⟨res, s₂⟩
  cases res with
  | ok r₂ => simp
  | error e => by_cases hct : containsSub e "nexveil:" = true <;>
      simp [hct]

/-- C4: the cached last-verification slot is overwritten only by a
`verify()` call whose result has `success = true`; a call that returns an
unsuccessful result or rejects (signature-verification failures included)
leaves the cached value exactly as it was before the call. -/
theorem cache_unchanged_without_success (H : String → String)
    (sys : SystemInfo) (net : Request → TransportResult)
    (nonce clientTime isoTime : String) (s : AuthState) (key : String)
    (h : ∀ r, (verify H sys net nonce clientTime isoTime s key).1 = .ok r →
      r.success = false) :
    getLastVerification (verify H sys net nonce clientTime isoTime s key).2 =
      getLastVerification s := by
  show ((verify H sys net nonce clientTime isoTime s key).2).lastVerification
    = s.lastVerification
  rw [verify_snd]
  by_cases hk : key = ""
  · simp [hk]
  · simp only [if_neg hk]
    apply verifyTry_cache_aux H sys net nonce clientTime isoTime s key
    intro r hr
    exact h r ((verify_fst_ok H sys net nonce clientTime isoTime s key hk
      r).mpr hr)

/-- Witness for C4: an expired-key reply (unsuccessful result) leaves the
cache slot as it was. -/
theorem cache_unchanged_without_success_witness :
    getLastVerification
        (verify mockHash sysBase (fun _ => TransportResult.reply 200
          bodyExpired) "n" "t" "iso" stBase "KEY").2 =
      getLastVerification stBase :=
  cache_unchanged_without_success mockHash sysBase
    (fun _ => TransportResult.reply 200 bodyExpired) "n" "t" "iso" stBase
    "KEY"
    (fun r hr => by
      have h2 : (Except.ok resExpired :
          Except String VerificationResult) = .ok r := hr
      cases h2
      rfl)

/-! ## Claim C3 -/

/-- C3: whenever `verify()` accepts a server response and returns a
result, `isActivated` is exactly `code == KEY_ACTIVATED`, `isValid` is
exactly `code ∈ {KEY_VALID, KEY_ACTIVATED}`, `success` equals `isValid`,
and every code outside that pair yields `success = false`. -/
theorem verify_classification (H : String → String) (sys : SystemInfo)
    (status : Nat) (body : ServerResponse)
    (nonce clientTime isoTime : String) (s : AuthState) (key : String)
    (r : VerificationResult) (s₂ : AuthState)
    (h : verify H sys (fun _ => .reply status body) nonce clientTime isoTime
      s key = (.ok r, s₂)) :
    r.isActivated = (body.code == some "KEY_ACTIVATED") ∧
    r.isValid = (body.code == some "KEY_VALID"
      || body.code == some "KEY_ACTIVATED") ∧
    r.success = r.isValid ∧
    (body.code ≠ some "KEY_VALID" → body.code ≠ some "KEY_ACTIVATED" →
      r.success = false) := by
  by_cases hk : key = ""
  · unfold verify at h
    simp [hk] at h
  · have h1 : (verify H sys (fun _ => .reply status body) nonce clientTime
        isoTime s key).1 = .ok r := by rw [h]
    have h2 := (verify_fst_ok H sys (fun _ => .reply status body) nonce
      clientTime isoTime s key hk r).mp h1
    unfold verifyTry at h2
    cases hg : getHWID H sys s with
    | error e => simp [hg] at h2
    | ok p =>
      obtain ⟨hwid, s₁⟩ := p
      simp only [hg] at h2
      by_cases hst : 500 ≤ status
      · simp [hst] at h2
      · simp only [if_neg hst] at h2
        by_cases hsig : (jsTruthy body.signature &&
            (jsStr body.signature !=
              H (nonce ++ s₁.secret3 ++ jsStr body.code))) = true
        · simp [hsig] at h2
        · simp only [if_neg hsig] at h2
          by_cases hv : (body.code == some "KEY_VALID"
              || body.code == some "KEY_ACTIVATED") = true
          · rw [if_pos hv] at h2
            injection h2 with h3
            subst h3
            refine ⟨rfl, rfl, hv.symm, fun hnv hna => ?_⟩
            simp [hnv, hna] at hv
          · rw [if_neg hv] at h2
            injection h2 with h3
            subst h3
            simp only [Bool.not_eq_true] at hv
            exact ⟨rfl, rfl, hv.symm, fun _ _ => rfl⟩

/-- Witness for C3 at the expired-key fixture call. -/
theorem verify_classification_witness :
    resExpired.isActivated = (bodyExpired.code == some "KEY_ACTIVATED") ∧
    resExpired.isValid = (bodyExpired.code == some "KEY_VALID"
      || bodyExpired.code == some "KEY_ACTIVATED") ∧
    resExpired.success = resExpired.isValid ∧
    (bodyExpired.code ≠ some "KEY_VALID" →
      bodyExpired.code ≠ some "KEY_ACTIVATED" →
      resExpired.success = false) :=
  verify_classification mockHash sysBase 200 bodyExpired "n" "t" "iso"
    stBase "KEY" resExpired stBase rfl

/-! ## Claim C1 -/

/-- C1 (amended): for every `verify(key)` call whose server response
carries a non-empty `signature` field that does not equal the hash of
`clientNonce ∥ secret3 ∥ responseCode` computed with that call's nonce,
`verify()` rejects with the signature-verification error and does not
classify or cache — even when the code is `KEY_VALID`.  (The response's
signature must be non-empty because the source gates the check on JS
truthiness; a present-but-empty signature field skips it, see the
counterexample.) -/
theorem verify_rejects_nonempty_bad_signature (H : String → String)
    (sys : SystemInfo) (status : Nat) (body : ServerResponse)
    (nonce clientTime isoTime : String) (s : AuthState) (key : String)
    (hwid : String) (s₁ : AuthState) (sig : String)
    (hk : ¬ key = "")
    (hg : getHWID H sys s = .ok (hwid, s₁))
    (hst : status < 500)
    (hsig : body.signature = some sig) (hne : sig ≠ "")
    (hbad : sig ≠ H (nonce ++ s.secret3 ++ jsStr body.code)) :
    verify H sys (fun _ => .reply status body) nonce clientTime isoTime s
      key =
      (.error
        "nexveil: Server signature verification failed - response may be tampered",
       s₁) ∧
    s₁.lastVerification = s.lastVerification := by
  obtain ⟨c, hc⟩ := getHWID_state_shape H sys s hwid s₁ hg
  have hs3 : s₁.secret3 = s.secret3 := by rw [hc]
  have hlv : s₁.lastVerification = s.lastVerification := by rw [hc]
  refine ⟨?_, hlv⟩
  have hcond : (jsTruthy body.signature &&
      (jsStr body.signature !=
        H (nonce ++ s₁.secret3 ++ jsStr body.code))) = true := by
    rw [hsig, hs3]
    simp [jsTruthy, jsStr, hne, hbad]
    exact hbad
  have hnst : ¬ 500 ≤ status := by omega
  unfold verify verifyTry
  simp only [if_neg hk, hg, if_neg hnst, if_pos hcond]
  rfl

/-- A reply that carries a present-but-empty signature field together with
the high-trust code. -/
def bodyEmptySig : ServerResponse :=
  { code := some "KEY_VALID", message := some "ok", signature := some "" }

/-- The successful result `verify` builds for `bodyEmptySig`. -/
def resEmptySig : VerificationResult :=
  { success := true, code := "KEY_VALID", message := "ok"
    signature := none, data := none, isActivated := false
    isValid := true, timestamp := "iso" }

/-- Counterexample to C1 as frozen: this response carries a `signature`
field (the empty string) that does not equal the expected hash, yet
`verify()` does not fail — it classifies the response as a success and
overwrites the cache, because the source's check is gated on the JS
truthiness of `data.signature` and the empty string is falsy. -/
theorem verify_accepts_present_empty_signature_mismatch :
    bodyEmptySig.signature = some "" ∧
    jsStr bodyEmptySig.signature ≠
      mockHash ("n" ++ stBase.secret3 ++ jsStr bodyEmptySig.code) ∧
    verify mockHash sysBase (fun _ => .reply 200 bodyEmptySig) "n" "t" "iso"
        stBase "KEY" =
      (.ok resEmptySig, { stBase with lastVerification := some resEmptySig })
      ∧
    resEmptySig.success = true ∧ resEmptySig.code = "KEY_VALID" := by
  refine ⟨rfl, ?_, rfl, rfl, rfl⟩
  decide

/-- A reply with a non-empty signature computed with the wrong secret. -/
def bodyBadSig : ServerResponse :=
  { code := some "KEY_VALID", message := some "ok", signature := some "bad" }

/-- Witness for the amended C1: a non-empty wrong signature on a
`KEY_VALID` reply makes `verify` reject and leaves the cache as it was. -/
theorem verify_rejects_nonempty_bad_signature_witness :
    verify mockHash sysBase (fun _ => .reply 200 bodyBadSig) "n" "t" "iso"
        stBase "KEY" =
      (.error
        "nexveil: Server signature verification failed - response may be tampered",
       stBase) ∧
    stBase.lastVerification = stBase.lastVerification :=
  verify_rejects_nonempty_bad_signature mockHash sysBase 200 bodyBadSig
    "n" "t" "iso" stBase "KEY" "HW" stBase "bad" (by decide) rfl
    (by omega) rfl (by decide) (by decide)
